import Mathlib

/-!
Shallow embedding of `config_model` (files `src/value.rs` and `src/decode.rs`):
the dynamically typed configuration `Value` tree, and the `Path` cursor that
walks it producing path-annotated errors.
-/

namespace ConfigModel

/-- Model of `Value` from `src/value.rs`: the closed set of configuration value variants.
`Array` payload is `Vec<Value>`; `Table` payload is `BTreeMap<String, Value>`,
modelled as an association list with unique keys. -/
inductive Value : Type where
  | string   : String → Value
  | integer  : Int → Value
  | float    : Float → Value
  | boolean  : Bool → Value
  | datetime : String → Value
  | array    : List Value → Value
  | table    : List (String × Value) → Value

/-- Model of `BTreeMap::get`: look up a key in a table (keys are unique, so first
match is the match). -/
def tableGet : List (String × Value) → String → Option Value
  | [], _ => none
  | (k, v) :: rest, key => if k = key then some v else tableGet rest key

/-- Model of `Value::same_type` (value.rs:26): true iff both values share a variant tag. -/
def Value.same_type : Value → Value → Bool
  | .string _, .string _ => true
  | .integer _, .integer _ => true
  | .float _, .float _ => true
  | .boolean _, .boolean _ => true
  | .datetime _, .datetime _ => true
  | .array _, .array _ => true
  | .table _, .table _ => true
  | _, _ => false

/-- Model of `Value::type_str` (value.rs:41): lowercase type name per variant. -/
def Value.type_str : Value → String
  | .string _ => "string"
  | .integer _ => "integer"
  | .float _ => "float"
  | .boolean _ => "boolean"
  | .datetime _ => "datetime"
  | .array _ => "array"
  | .table _ => "table"

/-- Model of `Value::as_str` (value.rs:54). -/
def Value.as_str : Value → Option String
  | .string s => some s
  | _ => none

/-- Model of `Value::as_integer` (value.rs:62). -/
def Value.as_integer : Value → Option Int
  | .integer i => some i
  | _ => none

/-- Model of `Value::as_float` (value.rs:70). -/
def Value.as_float : Value → Option Float
  | .float f => some f
  | _ => none

/-- Model of `Value::as_bool` (value.rs:78). -/
def Value.as_bool : Value → Option Bool
  | .boolean b => some b
  | _ => none

/-- Model of `Value::as_datetime` (value.rs:93). -/
def Value.as_datetime : Value → Option String
  | .datetime s => some s
  | _ => none

/-- Model of `Value::as_slice` (value.rs:101). -/
def Value.as_slice : Value → Option (List Value)
  | .array a => some a
  | _ => none

/-- Model of `Value::as_table` (value.rs:109). -/
def Value.as_table : Value → Option (List (String × Value))
  | .table t => some t
  | _ => none

/-- Model of `Property` (decode.rs:15): a named, described table field. -/
structure Property where
  name : String
  desc : String

/-- Model of `Error` (decode.rs:21): the closed error taxonomy. -/
inductive Error : Type where
  | expectedTable (desc : String)
  | expectedString (desc : String)
  | expectedInteger (desc : String)
  | expectedFloat (desc : String)
  | expectedBool (desc : String)
  | expectedDatetime (desc : String)
  | expectedSlice (desc : String)
  | expectedOneOfTypes (found_type : String) (possible_list : List String)
  | expectedProperty (p : Property)
  | expectedProperties (ps : List Property)
  | expectedOneOfProperties (ps : List Property)
  | incorrectValue (explanation : Option String) (value : Value)
      (possible_list : List Value)

/-- Model of `At<Error>` (decode.rs:67): an error tagged with the dotted path where it
occurred. `Error::at(path)` is modelled by the anonymous constructor. -/
structure At where
  error : Error
  path : String

/-- Model of `Path` (decode.rs:73): the cursor — path components so far, current value,
and the description used in errors. -/
structure Path where
  path : List String
  value : Value
  desc : String

/-- Model of `Path::new` (decode.rs:90). -/
def Path.new (value : Value) (desc : String) : Path :=
  ⟨[], value, desc⟩

/-- Model of `Path::new_at` (decode.rs:99). -/
def Path.new_at (value : Value) (path : List String) (desc : String) : Path :=
  ⟨path, value, desc⟩

/-- Model of `Path::clone_with` (decode.rs:108): same path and description, new value. -/
def Path.clone_with (p : Path) (value : Value) : Path :=
  ⟨p.path, value, p.desc⟩

/-- Model of `Path::path_as_string` (decode.rs:214): the source loop pushes the first
component with no separator and each later component preceded by a dot; we
split the first-iteration special case as a match on the first element. -/
def Path.path_as_string : List String → String
  | [] => ""
  | first :: rest => rest.foldl (fun result v => result ++ "." ++ v) first

/-- Model of `fmt::Display for Path` (decode.rs:230). -/
def Path.toString (p : Path) : String :=
  Path.path_as_string p.path

/-- Model of `Path::as_str` (decode.rs:172). NOTE: the source really constructs
`Error::ExpectedTable` here, not `ExpectedString`. -/
def Path.as_str (p : Path) : Except At String :=
  match p.value.as_str with
  | some s => .ok s
  | none => .error ⟨.expectedTable p.desc, p.toString⟩

/-- Model of `Path::as_integer` (decode.rs:178). -/
def Path.as_integer (p : Path) : Except At Int :=
  match p.value.as_integer with
  | some i => .ok i
  | none => .error ⟨.expectedInteger p.desc, p.toString⟩

/-- Model of `Path::as_float` (decode.rs:184). -/
def Path.as_float (p : Path) : Except At Float :=
  match p.value.as_float with
  | some f => .ok f
  | none => .error ⟨.expectedFloat p.desc, p.toString⟩

/-- Model of `Path::as_bool` (decode.rs:190). -/
def Path.as_bool (p : Path) : Except At Bool :=
  match p.value.as_bool with
  | some b => .ok b
  | none => .error ⟨.expectedBool p.desc, p.toString⟩

/-- Model of `Path::as_datetime` (decode.rs:196). -/
def Path.as_datetime (p : Path) : Except At String :=
  match p.value.as_datetime with
  | some s => .ok s
  | none => .error ⟨.expectedDatetime p.desc, p.toString⟩

/-- Model of `Path::as_slice` (decode.rs:202). -/
def Path.as_slice (p : Path) : Except At (List Value) :=
  match p.value.as_slice with
  | some a => .ok a
  | none => .error ⟨.expectedSlice p.desc, p.toString⟩

/-- Model of `Path::as_table` (decode.rs:208). -/
def Path.as_table (p : Path) : Except At (List (String × Value)) :=
  match p.value.as_table with
  | some t => .ok t
  | none => .error ⟨.expectedTable p.desc, p.toString⟩

/-- Model of `Path::table_property` (decode.rs:135): extend the path, require a table
(`try!(self.as_table())` — the error there carries the un-extended path),
then look the key up; a missing key fails at the extended path. -/
def Path.table_property (p : Path) (property_name property_desc : String) :
    Except At Path :=
  let path := p.path ++ [property_name]
  match p.as_table with
  | .error e => .error e
  | .ok t =>
    match tableGet t property_name with
    | some value => .ok ⟨path, value, property_desc⟩
    | none =>
        .error ⟨.expectedProperty ⟨property_name, property_desc⟩,
                Path.path_as_string path⟩

/-- Model of `Path::join` (decode.rs:158): unconditional descent with a supplied value. -/
def Path.join (p : Path) (value : Value) (property_name property_desc : String) :
    Path :=
  ⟨p.path ++ [property_name], value, property_desc⟩

end ConfigModel

namespace ConfigModel

/-- Spec-side rendering of a path: components joined with a dot, with no
separator before the first component and no trailing separator. -/
def renderDotJoined : List String → String
  | [] => ""
  | [x] => x
  | x :: xs => x ++ "." ++ renderDotJoined xs

/-- Helper: the tail of a dot-joined rendering, one leading dot per component. -/
def dotTail : List String → String
  | [] => ""
  | x :: xs => "." ++ x ++ dotTail xs

theorem foldl_dot (l : List String) :
    ∀ a, l.foldl (fun result v => result ++ "." ++ v) a = a ++ dotTail l := by
  induction l with
  | nil => intro a; simp [dotTail]
  | cons x xs ih =>
    intro a
    rw [List.foldl_cons, ih]
    simp only [dotTail]
    simp [String.append_assoc]

theorem renderDotJoined_cons (x : String) (xs : List String) :
    renderDotJoined (x :: xs) = x ++ dotTail xs := by
  induction xs generalizing x with
  | nil => simp [renderDotJoined, dotTail]
  | cons y ys ih =>
    simp only [renderDotJoined, dotTail, ih, String.append_assoc]

theorem path_as_string_eq_render (l : List String) :
    Path.path_as_string l = renderDotJoined l := by
  cases l with
  | nil => rfl
  | cons x xs => simp [Path.path_as_string, foldl_dot, renderDotJoined_cons]

end ConfigModel

namespace ConfigModel

/-- C2: for every cursor whose current value is not a table, `table_property`
fails with `ExpectedTable` carrying the cursor's current description,
attributed to the cursor's current (un-extended) path. -/
theorem table_property_non_table (p : Path) (name desc : String)
    (h : p.value.as_table = none) :
    p.table_property name desc =
      .error ⟨.expectedTable p.desc, Path.path_as_string p.path⟩ := by
  simp [Path.table_property, Path.as_table, Path.toString, h]

/-- Witness for C2 at a concrete non-table cursor. -/
theorem table_property_non_table_witness :
    Path.table_property ⟨["x"], .integer 5, "D"⟩ "a" "A" =
      .error ⟨.expectedTable "D", "x"⟩ :=
  table_property_non_table ⟨["x"], .integer 5, "D"⟩ "a" "A" rfl

/-- C3: for every cursor on a table lacking the key, `table_property` fails
with `ExpectedProperty {name, desc}` attributed to the extended path. -/
theorem table_property_missing_key (p : Path) (t : List (String × Value))
    (name desc : String) (hv : p.value = .table t)
    (hk : tableGet t name = none) :
    p.table_property name desc =
      .error ⟨.expectedProperty ⟨name, desc⟩,
              Path.path_as_string (p.path ++ [name])⟩ := by
  simp [Path.table_property, Path.as_table, hv, Value.as_table, hk]

/-- Witness for C3: looking up a missing key of a concrete table reports the
missing property at the extended path. -/
theorem table_property_missing_key_witness :
    Path.table_property ⟨["a"], .table [("b", .integer 1)], "A"⟩ "c" "C" =
      .error ⟨.expectedProperty ⟨"c", "C"⟩, "a.c"⟩ :=
  table_property_missing_key ⟨["a"], .table [("b", .integer 1)], "A"⟩
    [("b", .integer 1)] "c" "C" rfl rfl

/-- C4: for every cursor on a table containing the key, `table_property`
returns the cursor at the extended path with the child value and the new
description (which replaces the parent's description). -/
theorem table_property_found (p : Path) (t : List (String × Value))
    (name desc : String) (v : Value) (hv : p.value = .table t)
    (hk : tableGet t name = some v) :
    p.table_property name desc = .ok ⟨p.path ++ [name], v, desc⟩ := by
  simp [Path.table_property, Path.as_table, hv, Value.as_table, hk]

/-- Witness for C4 at a concrete one-key table. -/
theorem table_property_found_witness :
    Path.table_property ⟨[], .table [("b", .integer 5)], "root"⟩ "b" "B" =
      .ok ⟨["b"], .integer 5, "B"⟩ :=
  table_property_found ⟨[], .table [("b", .integer 5)], "root"⟩
    [("b", .integer 5)] "b" "B" (.integer 5) rfl rfl

/-- C5: the rendered path is the components joined with a dot, with no
separator before the first component and none after the last; the root
renders as the empty string and ["server", "port"] renders "server.port". -/
theorem path_render_dot_joined :
    (∀ l : List String, Path.path_as_string l = renderDotJoined l) ∧
    (∀ p : Path, p.toString = renderDotJoined p.path) ∧
    Path.path_as_string [] = "" ∧
    Path.path_as_string ["server", "port"] = "server.port" :=
  ⟨path_as_string_eq_render, fun p => path_as_string_eq_render p.path,
   rfl, rfl⟩

/-- C6: `clone_with` preserves the path components and the description and
changes only the current value; a cursor has no other attributes. -/
theorem clone_with_frame (p : Path) (v : Value) :
    (p.clone_with v).path = p.path ∧ (p.clone_with v).desc = p.desc ∧
    (p.clone_with v).value = v :=
  ⟨rfl, rfl, rfl⟩

/-- C9: path rendering is not injective — the distinct component lists
["a.b"] and ["a", "b"] render to the same string. -/
theorem path_render_not_injective :
    Path.path_as_string ["a.b"] = Path.path_as_string ["a", "b"] ∧
    (["a.b"] : List String) ≠ ["a", "b"] :=
  ⟨rfl, by decide⟩

end ConfigModel

namespace ConfigModel

/-- C7: for every value exactly one of the seven projectors is present, and
the one that succeeds is the one matching the name `type_str` returns. -/
theorem projectors_exactly_one (v : Value) :
    (v.as_str.isSome.toNat + v.as_integer.isSome.toNat +
     v.as_float.isSome.toNat + v.as_bool.isSome.toNat +
     v.as_datetime.isSome.toNat + v.as_slice.isSome.toNat +
     v.as_table.isSome.toNat = 1) ∧
    (v.as_str.isSome = true ↔ v.type_str = "string") ∧
    (v.as_integer.isSome = true ↔ v.type_str = "integer") ∧
    (v.as_float.isSome = true ↔ v.type_str = "float") ∧
    (v.as_bool.isSome = true ↔ v.type_str = "boolean") ∧
    (v.as_datetime.isSome = true ↔ v.type_str = "datetime") ∧
    (v.as_slice.isSome = true ↔ v.type_str = "array") ∧
    (v.as_table.isSome = true ↔ v.type_str = "table") := by
  cases v <;>
    simp [Value.as_str, Value.as_integer, Value.as_float, Value.as_bool,
          Value.as_datetime, Value.as_slice, Value.as_table, Value.type_str]

/-- C8: `same_type` is reflexive and symmetric, and equals comparison of the
per-variant `type_str` names, so it depends only on the variant tags and
never on the payloads. -/
theorem same_type_tag_based :
    (∀ v : Value, v.same_type v = true) ∧
    (∀ a b : Value, a.same_type b = b.same_type a) ∧
    (∀ a b : Value, a.same_type b = (a.type_str == b.type_str)) := by
  refine ⟨fun v => ?_, fun a b => ?_, fun a b => ?_⟩
  · cases v <;> rfl
  · cases a <;> cases b <;> rfl
  · cases a <;> cases b <;> rfl

/-- Predicate singling out the error kinds the core Path operations can
actually construct: the variants ExpectedString, ExpectedOneOfTypes,
ExpectedProperties, ExpectedOneOfProperties and IncorrectValue are excluded. -/
def coreErrorKind : Error → Bool
  | .expectedTable _ => true
  | .expectedInteger _ => true
  | .expectedFloat _ => true
  | .expectedBool _ => true
  | .expectedDatetime _ => true
  | .expectedSlice _ => true
  | .expectedProperty _ => true
  | _ => false

/-- A result either succeeds or carries one of the core error kinds. -/
def coreResultOk {α : Type} : Except At α → Bool
  | .ok _ => true
  | .error e => coreErrorKind e.error

/-- C10: every error any core Path operation can produce has one of the kinds
ExpectedTable, ExpectedInteger, ExpectedFloat, ExpectedBool,
ExpectedDatetime, ExpectedSlice or ExpectedProperty; in particular
ExpectedString and the remaining declared variants are never constructed. -/
theorem core_errors_closed (p : Path) (name desc : String) :
    coreResultOk (p.table_property name desc) = true ∧
    coreResultOk p.as_str = true ∧
    coreResultOk p.as_integer = true ∧
    coreResultOk p.as_float = true ∧
    coreResultOk p.as_bool = true ∧
    coreResultOk p.as_datetime = true ∧
    coreResultOk p.as_slice = true ∧
    coreResultOk p.as_table = true := by
  obtain ⟨path, value, d⟩ := p
  refine ⟨?_, ?_, ?_, ?_, ?_, ?_, ?_, ?_⟩ <;>
    cases value <;>
      simp [Path.table_property, Path.as_str, Path.as_integer, Path.as_float,
            Path.as_bool, Path.as_datetime, Path.as_slice, Path.as_table,
            Value.as_str, Value.as_integer, Value.as_float, Value.as_bool,
            Value.as_datetime, Value.as_slice, Value.as_table,
            coreResultOk, coreErrorKind]
  case table t =>
    cases h : tableGet t name <;> simp [h, coreResultOk, coreErrorKind]

/-- C1 (counter-evidence): on a non-string value, `Path.as_str` fails with the
`ExpectedTable` kind (decode.rs:175), not `ExpectedString` as every other
extractor's pattern — and the spec — would have it. -/
theorem as_str_produces_expected_table :
    Path.as_str ⟨[], Value.integer 1, "port"⟩ =
      .error ⟨Error.expectedTable "port", ""⟩ := rfl

end ConfigModel
